import Mathlib

/-!
Shallow embedding of `src/crates/eww/src/widgets/system_tray.rs` (the eww
system-tray widget) and verification of the specification claims about it.

The source file bridges a `stray` status-notifier host to GTK widgets:
  - `StatusNotifierWrapper::to_menu_item` recursively maps a stray menu node
    to a GTK `MenuItem`, wiring an `activate` handler that `try_send`s a
    `NotifierItemCommand::MenuItemClicked` on the command channel;
  - `NotifierItem::get_icon` resolves an icon through a fallback chain
    (custom theme path, default theme, "image-missing");
  - `spawn_local_handler` is the UI-side event loop: it applies each
    `NotifierItemMessage` to the global `STATE` map and rebuilds the menu bar.

GTK side effects are modelled as data: a constructed `MenuItem` is a tree
recording its kind, the captured values of its connected `activate` closure,
and its attached submenu; delivering activation events to an element is a
function from the element to the list of commands enqueued. Icon-theme
lookups are an oracle (`IconEnv`) saying which loads succeed. Rust panics
(`unwrap`/`expect` on the input data) are `Except.error`.
-/

set_option autoImplicit false

namespace SystemTray

/-- Status of a status-notifier item (`stray::message::tray::Status`). -/
inductive Status where
  | Passive
  | Active
  | NeedsAttention
deriving DecidableEq, Repr

/-- Kind of a stray menu node (`stray::message::menu::MenuType`). -/
inductive MenuType where
  | Separator
  | Standard
deriving DecidableEq, Repr

/-- A stray menu node (`stray::message::menu::MenuItem`): an id, a label,
a kind, and the ordered list of child nodes (`submenu`). -/
inductive MenuNode where
  | mk (id : Int) (label : String) (menu_type : MenuType) (submenu : List MenuNode)

/-- The id field of a menu node. -/
def MenuNode.id : MenuNode → Int
  | .mk i _ _ _ => i

/-- The label field of a menu node. -/
def MenuNode.label : MenuNode → String
  | .mk _ l _ _ => l

/-- The kind field of a menu node. -/
def MenuNode.menu_type : MenuNode → MenuType
  | .mk _ _ t _ => t

/-- The children of a menu node. -/
def MenuNode.submenu : MenuNode → List MenuNode
  | .mk _ _ _ s => s

/-- A stray tray menu (`stray::message::menu::TrayMenu`): the top-level
ordered sequence of menu nodes. Only the `submenus` field is read by the
source. -/
structure TrayMenu where
  submenus : List MenuNode

/-- The fields of `stray::message::tray::StatusNotifierItem` that the source
reads: `icon_name`, `icon_theme_path`, `status` and `menu` (the D-Bus menu
object path). All but `status` are optional in stray. -/
structure StatusNotifierItem where
  icon_name : Option String
  icon_theme_path : Option String
  status : Status
  menu : Option String

/-- The `NotifierItem` struct of the source: the last received
`StatusNotifierItem` payload plus the optional menu tree. -/
structure NotifierItem where
  item : StatusNotifierItem
  menu : Option TrayMenu

/-- An outbound command (`stray::message::NotifierItemCommand`). -/
inductive NotifierItemCommand where
  | MenuItemClicked (submenu_id : Int) (menu_path : String) (notifier_address : String)
deriving DecidableEq, Repr

/-- An inbound event (`stray::message::NotifierItemMessage`). -/
inductive NotifierItemMessage where
  | Update (address : String) (item : StatusNotifierItem) (menu : Option TrayMenu)
  | Remove (address : String)

/-- The visible kind of a constructed GTK item: `SeparatorMenuItem::new()`
or `MenuItem::with_label(label)`. -/
inductive GtkItemKind where
  | separator
  | standard (label : String)
deriving DecidableEq, Repr

/-- The values captured by the `connect_activate` closure in
`to_menu_item`: on activation it `try_send`s
`MenuItemClicked { submenu_id, menu_path, notifier_address }`. -/
structure ActivateHandler where
  submenu_id : Int
  menu_path : String
  notifier_address : String
deriving DecidableEq, Repr

/-- A constructed GTK `MenuItem`, as data: its kind, the `activate` handler
connected to it (if any), and the submenu attached via `set_submenu`
(if any). -/
inductive GtkMenuItem where
  | mk (kind : GtkItemKind) (handler : Option ActivateHandler)
       (submenu : Option (List GtkMenuItem))

/-- The kind of a constructed GTK item. -/
def GtkMenuItem.kind : GtkMenuItem → GtkItemKind
  | .mk k _ _ => k

/-- The activate handler connected to a constructed GTK item. -/
def GtkMenuItem.handler : GtkMenuItem → Option ActivateHandler
  | .mk _ h _ => h

/-- The submenu attached to a constructed GTK item. -/
def GtkMenuItem.submenu : GtkMenuItem → Option (List GtkMenuItem)
  | .mk _ _ s => s

mutual
/-- Embedding of `StatusNotifierWrapper::to_menu_item`. The source builds a
`SeparatorMenuItem` or a labelled `MenuItem` according to `menu_type`, then
unconditionally connects the activate closure (capturing the node id, the
menu path and the notifier address by value), and, when `submenu` is
non-empty, recursively maps every child and attaches the resulting submenu
container via `set_submenu`. -/
def to_menu_item (node : MenuNode) (notifier_address menu_path : String) :
    GtkMenuItem :=
  match node with
  | .mk id label menu_type submenu =>
    GtkMenuItem.mk
      (match menu_type with
        | .Separator => .separator
        | .Standard => .standard label)
      (some ⟨id, menu_path, notifier_address⟩)
      (if submenu.isEmpty then none
        else some (to_menu_items submenu notifier_address menu_path))

/-- The child-mapping loop of `to_menu_item`: `for submenu_item in
self.menu.submenu.iter().cloned() { ... to_menu_item ... }` in order. -/
def to_menu_items (nodes : List MenuNode) (notifier_address menu_path : String) :
    List GtkMenuItem :=
  match nodes with
  | [] => []
  | n :: rest =>
    to_menu_item n notifier_address menu_path ::
      to_menu_items rest notifier_address menu_path
end

/-- Delivering one activation event to a constructed element runs its
connected activate handler, if any; the handler enqueues exactly one
`MenuItemClicked` command built from its captured values. The list is the
sequence of commands enqueued on the outbound channel by that one event. -/
def activateOnce (e : GtkMenuItem) : List NotifierItemCommand :=
  match e.handler with
  | none => []
  | some h => [.MenuItemClicked h.submenu_id h.menu_path h.notifier_address]

/-- Delivering `n` successive activation events to a constructed element:
the concatenation of the commands enqueued by each event. -/
def activateTimes (e : GtkMenuItem) : Nat → List NotifierItemCommand
  | 0 => []
  | n + 1 => activateOnce e ++ activateTimes e n

/-- The child of a menu node at index `i` (into its `submenu` list). -/
def MenuNode.child? (n : MenuNode) (i : Nat) : Option MenuNode :=
  n.submenu[i]?

/-- The node of a menu tree at a position: a list of child indices walked
from the root. -/
def MenuNode.node? : MenuNode → List Nat → Option MenuNode
  | n, [] => some n
  | n, i :: rest =>
    match n.submenu[i]? with
    | none => none
    | some c => MenuNode.node? c rest

/-- The constructed element at a position: a list of child indices walked
through the attached submenus (an element with no attached submenu has no
children). -/
def GtkMenuItem.elem? : GtkMenuItem → List Nat → Option GtkMenuItem
  | e, [] => some e
  | e, i :: rest =>
    match (e.submenu.getD [])[i]? with
    | none => none
    | some c => GtkMenuItem.elem? c rest

/-- An image produced by a successful icon-theme load, tagged with where it
came from: a load from the freshly created theme with the record's custom
search path prepended, or a load from the default theme. -/
inductive Image where
  | fromCustom (path : String) (icon_name : String)
  | fromDefault (icon_name : String)
deriving DecidableEq, Repr

/-- Oracle for the GTK icon-theme collaborator: which
`load_icon(name, 24, FORCE_SIZE)` calls succeed, on a theme with a custom
search path prepended and on the default theme. -/
structure IconEnv where
  loadCustom : String → String → Bool
  loadDefault : String → Bool

/-- Embedding of `NotifierItem::get_icon`. The source starts with
`self.item.icon_name.as_ref().unwrap()`, panicking when `icon_name` is
absent (modelled as `Except.error`). Then, when `icon_theme_path` is
present and non-empty, it tries a theme with that path prepended and
returns its image on success; otherwise it tries the default theme, then
the "image-missing" icon in the default theme, and finally returns no
image. -/
def get_icon (item : StatusNotifierItem) (env : IconEnv) :
    Except String (Option Image) :=
  match item.icon_name with
  | none => .error "called Option::unwrap on a None value: icon_name"
  | some icon_name =>
    .ok <|
      let fromDefaultTheme : Option Image :=
        if env.loadDefault icon_name then some (.fromDefault icon_name)
        else if env.loadDefault "image-missing" then
          some (.fromDefault "image-missing")
        else none
      match item.icon_theme_path with
      | some path =>
        if !path.isEmpty then
          if env.loadCustom path icon_name then some (.fromCustom path icon_name)
          else fromDefaultTheme
        else fromDefaultTheme
      | none => fromDefaultTheme

/-- The shared tray state `STATE : Mutex<HashMap<String, NotifierItem>>`,
modelled as the association list of its entries in the `HashMap`'s
iteration order. `HashMap::iter` visits entries in an arbitrary,
content-independent internal order, so the model carries that order
explicitly; states equal as mappings are permutations of each other.
Keys are unique (it is a map). -/
abbrev TrayState := List (String × NotifierItem)

/-- Lookup in the shared state, by key. -/
def lookupEntry (s : TrayState) (k : String) : Option NotifierItem :=
  match s with
  | [] => none
  | (k1, v) :: rest => if k1 = k then some v else lookupEntry rest k

/-- `HashMap::insert`: overwrite the value at an existing key in place, or
add a new entry when the key is absent. -/
def insertEntry (s : TrayState) (k : String) (v : NotifierItem) : TrayState :=
  match s with
  | [] => [(k, v)]
  | (k1, v1) :: rest =>
    if k1 = k then (k, v) :: rest else (k1, v1) :: insertEntry rest k v

/-- `HashMap::remove`: drop the entry at the key, if present. -/
def removeEntry (s : TrayState) (k : String) : TrayState :=
  match s with
  | [] => []
  | (k1, v1) :: rest =>
    if k1 = k then rest else (k1, v1) :: removeEntry rest k

/-- The `match item` step of `spawn_local_handler`: an `Update` inserts a
fresh `NotifierItem { item, menu }` at its address, a `Remove` removes its
address. -/
def applyMessage (s : TrayState) : NotifierItemMessage → TrayState
  | .Update address item menu => insertEntry s address ⟨item, menu⟩
  | .Remove address => removeEntry s address

/-- One top-level entry appended to the menu bar by the render loop: the
`MenuItem` holding the icon, together with the submenu attached when the
record's tray menu has a non-empty `submenus` list. -/
structure RenderedItem where
  address : String
  icon : Image
  submenu : Option (List GtkMenuItem)

/-- The body of the render loop of `spawn_local_handler` for one `(address,
notifier_item)` pair: skip (`continue`) when the status is `Passive`;
resolve the icon with `get_icon` (propagating its panic); append nothing
when no icon resolved; otherwise build the element, and when the record has
a tray menu with non-empty `submenus`, map each submenu node with
`to_menu_item` — reading the menu path from
`notifier_item.item.menu.as_ref().unwrap()`, a panic when that field is
absent — and attach the resulting container. -/
def renderItem (address : String) (n : NotifierItem) (env : IconEnv) :
    Except String (Option RenderedItem) :=
  if n.item.status = .Passive then .ok none
  else
    match get_icon n.item env with
    | .error e => .error e
    | .ok none => .ok none
    | .ok (some icon) =>
      match n.menu with
      | none => .ok (some ⟨address, icon, none⟩)
      | some tray_menu =>
        if tray_menu.submenus.isEmpty then .ok (some ⟨address, icon, none⟩)
        else
          match n.item.menu with
          | none => .error "called Option::unwrap on a None value: menu path"
          | some menu_path =>
            .ok (some ⟨address, icon,
              some (to_menu_items tray_menu.submenus address menu_path)⟩)

/-- The render pass of `spawn_local_handler`: after the menu bar is cleared,
iterate the state in its iteration order and append the rendered element of
each entry, skipping entries that render nothing and propagating panics. -/
def renderState (s : TrayState) (env : IconEnv) :
    Except String (List RenderedItem) :=
  match s with
  | [] => .ok []
  | (address, n) :: rest =>
    match renderItem address n env with
    | .error e => .error e
    | .ok r =>
      match renderState rest env with
      | .error e => .error e
      | .ok rs =>
        match r with
        | none => .ok rs
        | some item => .ok (item :: rs)

/-- Whether the render pass, when it completes without panicking, renders
an entry: the status is not `Passive` and icon resolution yields an image. -/
def shouldRender (n : NotifierItem) (env : IconEnv) : Bool :=
  n.item.status != .Passive &&
    match get_icon n.item env with
    | .ok (some _) => true
    | _ => false

/-- The rendered addresses, in render order. -/
def renderAddresses (s : TrayState) (env : IconEnv) :
    Except String (List String) :=
  (renderState s env).map (List.map RenderedItem.address)

/-- The address named by an inbound event. -/
def NotifierItemMessage.address : NotifierItemMessage → String
  | .Update a _ _ => a
  | .Remove a => a

/-- Abstract actions of the `spawn_local_handler` event loop, in source
order. `awaitEvent` is `receiver.recv().await`, the loop's only suspension
point; `lockAcquire` is `STATE.lock().unwrap()`; `applyEvent` is the
`match item` insert/remove; `clearMenuBar` removes every child of `v_box`;
`buildWidgets` is the `for (address, notifier_item) in state.iter()` loop
that constructs all UI elements; `lockRelease` is the `MutexGuard` drop at
the close of the `while` body. -/
inductive HandlerAction where
  | awaitEvent
  | lockAcquire
  | applyEvent
  | clearMenuBar
  | buildWidgets
  | lockRelease
deriving DecidableEq, Repr

/-- One iteration of the `while let Some(item) = receiver.recv().await`
body, as the sequence of its actions in source order: the guard returned by
`STATE.lock().unwrap()` lives until the end of the body, so its release
comes after all widget construction. -/
def iterationTrace : List HandlerAction :=
  [.awaitEvent, .lockAcquire, .applyEvent, .clearMenuBar, .buildWidgets,
   .lockRelease]

/-- The handler loop run for `n` received events: `n` iterations in
sequence. -/
def loopTrace : Nat → List HandlerAction
  | 0 => []
  | n + 1 => iterationTrace ++ loopTrace n

/-- Whether the mutex is held after executing one action, given whether it
was held before. -/
def lockAfter (held : Bool) (a : HandlerAction) : Bool :=
  match a with
  | .lockAcquire => true
  | .lockRelease => false
  | _ => held

/-- Pair every action of a trace with whether the mutex is held when the
action runs, starting from the given lock state. -/
def annotateLock (held : Bool) : List HandlerAction →
    List (HandlerAction × Bool)
  | [] => []
  | a :: rest => (a, held) :: annotateLock (lockAfter held a) rest

/-- A sample active record with a present icon name and no menu, for
concrete instantiations. -/
def sampleItem (name : String) : NotifierItem :=
  ⟨⟨some name, none, .Active, none⟩, none⟩

/-- An icon environment whose default theme resolves every name and with no
custom-path hits. -/
def envAllDefault : IconEnv :=
  ⟨fun _ _ => false, fun _ => true⟩

/-- An icon environment whose default theme resolves exactly the name
"ok-icon" (and in particular not "image-missing"). -/
def envOnlyOk : IconEnv :=
  ⟨fun _ _ => false, fun name => name == "ok-icon"⟩

/-!
Helper lemmas shared by the claim theorems.
-/

/-- Unfolding of the child-mapping loop as a `List.map`. -/
theorem to_menu_items_eq_map (nodes : List MenuNode) (addr mpath : String) :
    to_menu_items nodes addr mpath =
      nodes.map fun n => to_menu_item n addr mpath := by
  induction nodes with
  | nil => rfl
  | cons n rest ih => simp [to_menu_items, ih]

/-- The element built for a node always has the activate handler connected,
capturing the node's id, the menu path and the address. -/
theorem to_menu_item_handler (node : MenuNode) (addr mpath : String) :
    (to_menu_item node addr mpath).handler =
      some ⟨node.id, mpath, addr⟩ := by
  cases node
  simp [to_menu_item, GtkMenuItem.handler, MenuNode.id]

/-- One activation of the element built for a node enqueues exactly the one
click command built from the captured values. -/
theorem activateOnce_to_menu_item (node : MenuNode) (addr mpath : String) :
    activateOnce (to_menu_item node addr mpath) =
      [.MenuItemClicked node.id mpath addr] := by
  simp [activateOnce, to_menu_item_handler]

/-- The submenu attached to the element built for a node: none when the
node has no children, otherwise the in-order mapping of the children. -/
theorem to_menu_item_submenu (node : MenuNode) (addr mpath : String) :
    (to_menu_item node addr mpath).submenu =
      if node.submenu.isEmpty then none
      else some (node.submenu.map fun c => to_menu_item c addr mpath) := by
  cases node
  simp [to_menu_item, GtkMenuItem.submenu, MenuNode.submenu,
    to_menu_items_eq_map]

/-- Walking the constructed element tree mirrors walking the node tree: the
element at a position is the mapping of the node at that position. -/
theorem elem_at_pos (pos : List Nat) (node : MenuNode) (addr mpath : String)
    (k : MenuNode) (hk : node.node? pos = some k) :
    (to_menu_item node addr mpath).elem? pos =
      some (to_menu_item k addr mpath) := by
  induction pos generalizing node with
  | nil =>
    simp [MenuNode.node?] at hk
    subst hk
    rfl
  | cons i rest ih =>
    cases node with
    | mk id label mtype sub =>
      simp only [MenuNode.node?, MenuNode.submenu] at hk
      rcases hc : sub[i]? with _ | c
      · rw [hc] at hk; exact absurd hk (by simp)
      · rw [hc] at hk
        have hne : sub.isEmpty = false := by
          cases sub
          · simp at hc
          · rfl
        simp only [GtkMenuItem.elem?, to_menu_item, GtkMenuItem.submenu, hne,
          Bool.false_eq_true, if_false, Option.getD_some,
          to_menu_items_eq_map, List.getElem?_map, hc, Option.map_some]
        exact ih c hk

/-- A loop entry that renders nothing (without panicking) is exactly one
that is `Passive` or whose icon does not resolve. -/
theorem renderItem_ok_none {a : String} {n : NotifierItem} {env : IconEnv}
    (h : renderItem a n env = .ok none) : shouldRender n env = false := by
  unfold renderItem at h
  unfold shouldRender
  split at h
  · next hp => simp [hp]
  · next hp =>
    split at h
    · exact absurd h (by simp)
    · next hg => simp [hp, hg]
    · next icon hg =>
      split at h
      · exact absurd h (by simp)
      · split at h
        · exact absurd h (by simp)
        · split at h
          · exact absurd h (by simp)
          · exact absurd h (by simp)

/-- A loop entry that renders an element is one that should render, and the
element carries the entry's address. -/
theorem renderItem_ok_some {a : String} {n : NotifierItem} {env : IconEnv}
    {r : RenderedItem} (h : renderItem a n env = .ok (some r)) :
    shouldRender n env = true ∧ r.address = a := by
  unfold renderItem at h
  unfold shouldRender
  split at h
  · exact absurd h (by simp)
  · next hp =>
    split at h
    · exact absurd h (by simp)
    · exact absurd h (by simp)
    · next icon hg =>
      refine ⟨by simp [hp, hg], ?_⟩
      split at h
      · cases h; rfl
      · split at h
        · cases h; rfl
        · split at h
          · exact absurd h (by simp)
          · cases h; rfl

/-- The addresses a completed render pass emits are exactly those of the
state entries that should render, in state iteration order. -/
theorem renderState_filter {s : TrayState} {env : IconEnv}
    {out : List RenderedItem} (h : renderState s env = .ok out) :
    out.map RenderedItem.address =
      (s.filter fun e => shouldRender e.2 env).map Prod.fst := by
  induction s generalizing out with
  | nil =>
    simp [renderState] at h
    simp [h.symm]
  | cons e rest ih =>
    obtain ⟨address, n⟩ := e
    unfold renderState at h
    rcases hr : renderItem address n env with msg | r <;> rw [hr] at h
    · exact absurd h (by simp)
    · rcases hrest : renderState rest env with msg | rs <;> rw [hrest] at h
      · exact absurd h (by simp)
      · rcases r with _ | item
        · cases h
          have hn := renderItem_ok_none hr
          simp only [List.filter_cons, hn, Bool.false_eq_true, if_false]
          exact ih hrest
        · cases h
          obtain ⟨hs, haddr⟩ := renderItem_ok_some hr
          simp only [List.filter_cons, hs, if_true, List.map_cons, haddr]
          exact congrArg (address :: ·) (ih hrest)

/-- Inserting at a key makes lookup at that key return the new value. -/
theorem lookupEntry_insertEntry_self (s : TrayState) (k : String)
    (v : NotifierItem) : lookupEntry (insertEntry s k v) k = some v := by
  induction s with
  | nil => simp [insertEntry, lookupEntry]
  | cons e rest ih =>
    obtain ⟨k1, v1⟩ := e
    by_cases h : k1 = k
    · simp [insertEntry, h, lookupEntry]
    · simp [insertEntry, h, lookupEntry, ih]

/-- Inserting at a key leaves lookup at every other key unchanged. -/
theorem lookupEntry_insertEntry_other (s : TrayState) (k : String)
    (v : NotifierItem) (a : String) (ha : a ≠ k) :
    lookupEntry (insertEntry s k v) a = lookupEntry s a := by
  induction s with
  | nil => simp [insertEntry, lookupEntry, Ne.symm ha]
  | cons e rest ih =>
    obtain ⟨k1, v1⟩ := e
    by_cases h : k1 = k
    · subst h
      simp [insertEntry, lookupEntry, Ne.symm ha]
    · simp [insertEntry, h, lookupEntry, ih]

/-- Removing a key leaves lookup at every other key unchanged. -/
theorem lookupEntry_removeEntry_other (s : TrayState) (k : String)
    (a : String) (ha : a ≠ k) :
    lookupEntry (removeEntry s k) a = lookupEntry s a := by
  induction s with
  | nil => rfl
  | cons e rest ih =>
    obtain ⟨k1, v1⟩ := e
    by_cases h : k1 = k
    · subst h
      simp [removeEntry, lookupEntry, Ne.symm ha]
    · simp [removeEntry, h, lookupEntry, ih]

/-- Lookup misses when the key is not among the entry keys. -/
theorem lookupEntry_eq_none {s : TrayState} {k : String}
    (h : k ∉ s.map Prod.fst) : lookupEntry s k = none := by
  induction s with
  | nil => rfl
  | cons e rest ih =>
    obtain ⟨k1, v1⟩ := e
    simp only [List.map_cons, List.mem_cons] at h
    push_neg at h
    have h1 : k1 ≠ k := fun hh => h.1 hh.symm
    simp [lookupEntry, h1, ih h.2]

/-- On a state with unique keys, removing a key makes lookup at it miss. -/
theorem lookupEntry_removeEntry_self (s : TrayState) (k : String)
    (hnd : (s.map Prod.fst).Nodup) :
    lookupEntry (removeEntry s k) k = none := by
  induction s with
  | nil => rfl
  | cons e rest ih =>
    obtain ⟨k1, v1⟩ := e
    simp only [List.map_cons, List.nodup_cons] at hnd
    by_cases h : k1 = k
    · subst h
      simp only [removeEntry, if_pos rfl]
      exact lookupEntry_eq_none hnd.1
    · simp [removeEntry, h, lookupEntry, ih hnd.2]

/-- Unfolding of the icon fallback chain once the custom-path attempt has
failed: the result is the default-theme image, else the "image-missing"
image, else nothing. -/
theorem get_icon_default_chain {item : StatusNotifierItem} {env : IconEnv}
    {name path : String} (h1 : item.icon_name = some name)
    (h2 : item.icon_theme_path = some path) (h3 : path.isEmpty = false)
    (h4 : env.loadCustom path name = false) :
    get_icon item env = .ok
      (if env.loadDefault name then some (.fromDefault name)
       else if env.loadDefault "image-missing" then
         some (.fromDefault "image-missing")
       else none) := by
  simp [get_icon, h1, h2, h3, h4]

/-!
Claim theorems.
-/

/-- C1, counterexample. The claim says a Separator element never enqueues a
`MenuItemClicked` command regardless of delivered activation events, but
`to_menu_item` connects the activate closure before distinguishing kinds:
delivering one activation event to the element built for a concrete
Separator node enqueues one command. -/
theorem C1_counterexample :
    (MenuNode.mk 7 "" .Separator []).menu_type = .Separator ∧
    activateTimes (to_menu_item (.mk 7 "" .Separator []) "ADDR" "PATH") 1 =
      [.MenuItemClicked 7 "PATH" "ADDR"] :=
  ⟨rfl, rfl⟩

/-- C1, amended. The mapper builds a `SeparatorMenuItem` for a Separator
node but still connects the activate handler to it: delivering `n`
activation events to the element enqueues `n` `MenuItemClicked` commands
carrying the node's id, the menu path and the notifier address. -/
theorem C1_separator_activation (node : MenuNode) (addr mpath : String)
    (n : Nat) (hsep : node.menu_type = .Separator) :
    (to_menu_item node addr mpath).kind = .separator ∧
    activateTimes (to_menu_item node addr mpath) n =
      List.replicate n (.MenuItemClicked node.id mpath addr) := by
  constructor
  · cases node with
    | mk id label mtype sub =>
      simp only [MenuNode.menu_type] at hsep
      subst hsep
      rfl
  · induction n with
    | zero => rfl
    | succ m ih =>
      simp [activateTimes, activateOnce_to_menu_item, ih, List.replicate_succ]

/-- C1, witness for the amended theorem at a concrete Separator node and
two activation events. -/
theorem C1_witness :
    (to_menu_item (.mk 7 "" .Separator []) "A" "P").kind = .separator ∧
    activateTimes (to_menu_item (.mk 7 "" .Separator []) "A" "P") 2 =
      List.replicate 2 (.MenuItemClicked 7 "P" "A") :=
  C1_separator_activation (.mk 7 "" .Separator []) "A" "P" 2 rfl

/-- C2, counterexample. The claim says a Separator with children maps
identically to the same Separator with no children and gets no submenu, but
the submenu block of `to_menu_item` runs for every kind: a concrete
Separator with one Standard child gets a submenu container holding the
mapped child, so its element differs from the childless mapping. -/
theorem C2_counterexample :
    (to_menu_item (.mk 1 "" .Separator [.mk 2 "x" .Standard []]) "A"
        "P").submenu =
      some [to_menu_item (.mk 2 "x" .Standard []) "A" "P"] ∧
    to_menu_item (.mk 1 "" .Separator [.mk 2 "x" .Standard []]) "A" "P" ≠
      to_menu_item (.mk 1 "" .Separator []) "A" "P" := by
  refine ⟨rfl, fun h => ?_⟩
  have h2 : (some [to_menu_item (.mk 2 "x" .Standard []) "A" "P"] :
      Option (List GtkMenuItem)) = none := congrArg GtkMenuItem.submenu h
  exact Option.noConfusion h2

/-- C2, amended. For every node with non-empty children — Separator nodes
included — the mapper recurses into the children and attaches the submenu
container holding their in-order mappings. -/
theorem C2_separator_children_mapped (node : MenuNode) (addr mpath : String)
    (hsep : node.menu_type = .Separator) (hne : node.submenu ≠ []) :
    (to_menu_item node addr mpath).submenu =
      some (node.submenu.map fun c => to_menu_item c addr mpath) := by
  rcases hs : node.submenu with _ | ⟨c, cs⟩
  · exact absurd hs hne
  · rw [to_menu_item_submenu, hs]
    rfl

/-- C2, witness for the amended theorem at a concrete Separator node with
one child. -/
theorem C2_witness :
    (to_menu_item (.mk 1 "" .Separator [.mk 2 "x" .Standard []]) "A"
        "P").submenu =
      some ([MenuNode.mk 2 "x" .Standard []].map fun c =>
        to_menu_item c "A" "P") :=
  C2_separator_children_mapped _ "A" "P" rfl (by simp [MenuNode.submenu])

/-- C3, counterexample. The claim says `get_icon` is total on every record
including those with `icon_name` absent, but the function starts with
`self.item.icon_name.as_ref().unwrap()`: on a record with no icon name it
panics instead of returning an image or nothing. -/
theorem C3_counterexample :
    get_icon ⟨none, none, .Active, none⟩ envAllDefault =
      .error "called Option::unwrap on a None value: icon_name" :=
  rfl

/-- C3, amended. On every record whose `icon_name` is present, `get_icon`
terminates with a normal result (an image or nothing), for every icon
environment; totality fails only through the `unwrap` on an absent
`icon_name`. -/
theorem C3_total_when_name_present (item : StatusNotifierItem)
    (env : IconEnv) (name : String) (h : item.icon_name = some name) :
    ∃ r, get_icon item env = .ok r := by
  unfold get_icon
  rw [h]
  exact ⟨_, rfl⟩

/-- C3, witness for the amended theorem at a concrete record with a present
icon name. -/
theorem C3_witness :
    ∃ r, get_icon ⟨some "n", none, .Active, none⟩ envAllDefault = .ok r :=
  C3_total_when_name_present _ envAllDefault "n" rfl

/-- C4, counterexample. The claim says the state mutex is released before
any UI element construction begins, but the `MutexGuard` returned by
`STATE.lock().unwrap()` lives to the end of the `while` body: in the
annotated trace of one loop iteration the widget-construction action runs
with the lock held. -/
theorem C4_counterexample :
    ¬ ∀ p ∈ annotateLock false (loopTrace 1),
        p.1 = HandlerAction.buildWidgets → p.2 = false := by
  intro h
  have hb := h (.buildWidgets, true) (by decide) rfl
  exact absurd hb (by decide)

/-- C4, amended. In every run of the handler loop, the mutex is never held
at the suspension point (awaiting the next inbound event), but it is held
during all UI element construction: the lock spans the whole loop body,
apply, teardown and rebuild, and is released only at the body's end. -/
theorem C4_lock_discipline (n : Nat) (p : HandlerAction × Bool)
    (hp : p ∈ annotateLock false (loopTrace n)) :
    (p.1 = .awaitEvent → p.2 = false) ∧
    (p.1 = .buildWidgets → p.2 = true) := by
  induction n generalizing p with
  | zero => simp [loopTrace, annotateLock] at hp
  | succ n ih =>
    simp only [loopTrace, iterationTrace, List.cons_append, List.nil_append,
      annotateLock, lockAfter, List.mem_cons] at hp
    rcases hp with h | h | h | h | h | h | h <;>
      first
        | (subst h; exact ⟨by simp, by simp⟩)
        | exact ih _ h

/-- C4, witness for the amended theorem at the widget-construction action
of a one-iteration run. -/
theorem C4_witness :
    ((HandlerAction.buildWidgets, true).1 = HandlerAction.awaitEvent →
      (HandlerAction.buildWidgets, true).2 = false) ∧
    ((HandlerAction.buildWidgets, true).1 = HandlerAction.buildWidgets →
      (HandlerAction.buildWidgets, true).2 = true) :=
  C4_lock_discipline 1 (.buildWidgets, true) (by decide)

/-- A two-entry state and its key-swapped permutation: equal as mappings
(same pairs, unique keys), different `HashMap` iteration orders. -/
def s5a : TrayState := [("a", sampleItem "i"), ("b", sampleItem "j")]

/-- The same mapping as `s5a` with the opposite iteration order. -/
def s5b : TrayState := [("b", sampleItem "j"), ("a", sampleItem "i")]

/-- C5, counterexample. The claim says any two render passes over an equal
state produce the rendered items in the same (deterministic address) order,
but the pass iterates `state.iter()` as-is and never sorts: two states
equal as mappings (a permutation with unique keys) render in their
respective iteration orders, which differ. -/
theorem C5_counterexample :
    s5a.Perm s5b ∧ (s5a.map Prod.fst).Nodup ∧
    renderAddresses s5a envAllDefault ≠ renderAddresses s5b envAllDefault := by
  refine ⟨List.Perm.swap _ _ _, by decide, fun h => ?_⟩
  have h1 : (Except.ok ["a", "b"] : Except String (List String)) =
      .ok ["b", "a"] := h
  have h2 : (["a", "b"] : List String) = ["b", "a"] := by injection h1
  exact absurd h2 (by decide)

/-- C5, amended. The render pass visits the state in its `HashMap`
iteration order, not in a sorted or otherwise content-determined address
order: the rendered addresses of a completed pass are a subsequence of the
state's keys in iteration order, so equal iteration orders — not merely
equal mappings — give equal render orders. -/
theorem C5_render_order (s : TrayState) (env : IconEnv)
    (out : List RenderedItem) (h : renderState s env = .ok out) :
    (out.map RenderedItem.address).Sublist (s.map Prod.fst) := by
  rw [renderState_filter h]
  exact List.Sublist.map Prod.fst (List.filter_sublist s)

/-- C5, witness for the amended theorem at a concrete two-entry state. -/
theorem C5_witness :
    (([⟨"a", .fromDefault "i", none⟩, ⟨"b", .fromDefault "j", none⟩] :
        List RenderedItem).map RenderedItem.address).Sublist
      (s5a.map Prod.fst) :=
  C5_render_order s5a envAllDefault _ rfl

/-- C6. The icon fallback chain in `get_icon`, first success winning: with
a present, non-empty custom path whose load fails, a default-theme success
returns the default-theme image (not the "image-missing" fallback); with
the default theme also failing, a successful "image-missing" load returns
the fallback image; with all three failing, no image is returned and the
render loop skips the item. -/
theorem C6_fallback_order (item : StatusNotifierItem) (env : IconEnv)
    (name path : String) (hname : item.icon_name = some name)
    (hpath : item.icon_theme_path = some path)
    (hne : path.isEmpty = false)
    (hc : env.loadCustom path name = false) :
    (env.loadDefault name = true →
      get_icon item env = .ok (some (.fromDefault name))) ∧
    (env.loadDefault name = false →
      env.loadDefault "image-missing" = true →
      get_icon item env = .ok (some (.fromDefault "image-missing"))) ∧
    (env.loadDefault name = false →
      env.loadDefault "image-missing" = false →
      get_icon item env = .ok none ∧
      ∀ (addr : String) (menu : Option TrayMenu),
        renderItem addr ⟨item, menu⟩ env = .ok none) := by
  refine ⟨fun hd => ?_, fun hd hf => ?_, fun hd hf => ?_⟩
  · rw [get_icon_default_chain hname hpath hne hc]
    simp [hd]
  · rw [get_icon_default_chain hname hpath hne hc]
    simp [hd, hf]
  · have hg : get_icon item env = .ok none := by
      rw [get_icon_default_chain hname hpath hne hc]
      simp [hd, hf]
    refine ⟨hg, fun addr menu => ?_⟩
    unfold renderItem
    split
    · rfl
    · rw [hg]

/-- C6, witness at a concrete record and environment where the custom path
fails and the default theme succeeds. -/
theorem C6_witness :
    get_icon ⟨some "n", some "p", .Active, none⟩
        ⟨fun _ _ => false, fun s => s == "n"⟩ =
      .ok (some (.fromDefault "n")) :=
  (C6_fallback_order _ _ "n" "p" rfl rfl rfl rfl).1 rfl

/-- A state holding one record of each status, where only the icon name
"ok-icon" resolves: the Active record's icon fails all three fallbacks. -/
def s7 : TrayState :=
  [("a", ⟨⟨some "bad", none, .Active, none⟩, none⟩),
   ("b", ⟨⟨some "ok-icon", none, .Passive, none⟩, none⟩),
   ("c", ⟨⟨some "ok-icon", none, .NeedsAttention, none⟩, none⟩)]

/-- C7, counterexample. The claim says a record is skipped if and only if
its status is Passive, so the rendered set is exactly the Active and
NeedsAttention records; but the render loop also skips any record whose
icon resolution yields no image: in `s7` the record at "a" is Active yet
unrendered, because its icon fails every fallback. -/
theorem C7_counterexample :
    (lookupEntry s7 "a").map (fun n => n.item.status) = some .Active ∧
    renderAddresses s7 envOnlyOk = .ok ["c"] :=
  ⟨rfl, rfl⟩

/-- C7, amended. A completed render pass renders exactly the records that
are not Passive and whose icon resolves to an image, in state iteration
order: a record is skipped if and only if it is Passive or icon resolution
yields no image. -/
theorem C7_rendered_set (s : TrayState) (env : IconEnv)
    (out : List RenderedItem) (h : renderState s env = .ok out) :
    out.map RenderedItem.address =
      (s.filter fun e => e.2.item.status != .Passive &&
        match get_icon e.2.item env with
        | .ok (some _) => true
        | _ => false).map Prod.fst := by
  simpa [shouldRender] using renderState_filter h

/-- C7, witness for the amended theorem at the mixed-status state `s7`. -/
theorem C7_witness :
    ([(⟨"c", .fromDefault "ok-icon", none⟩ : RenderedItem)].map
        RenderedItem.address) =
      (s7.filter fun e => e.2.item.status != .Passive &&
        match get_icon e.2.item envOnlyOk with
        | .ok (some _) => true
        | _ => false).map Prod.fst :=
  C7_rendered_set s7 envOnlyOk _ rfl

/-- C8. Menu mapping round-trip: for every tree and every position holding
a Standard node `k`, the mapped element tree holds an element at that
position whose single activation enqueues exactly one `MenuItemClicked`
with `submenu_id = k.id`, the enclosing item's menu path, and the enclosing
item's notifier address. -/
theorem C8_roundtrip (tree : MenuNode) (addr mpath : String)
    (pos : List Nat) (k : MenuNode) (hk : tree.node? pos = some k)
    (hstd : k.menu_type = .Standard) :
    ∃ e, (to_menu_item tree addr mpath).elem? pos = some e ∧
      activateOnce e = [.MenuItemClicked k.id mpath addr] :=
  ⟨to_menu_item k addr mpath, elem_at_pos pos tree addr mpath k hk,
    activateOnce_to_menu_item k addr mpath⟩

/-- C8, witness at a depth-two concrete tree, activating the nested
Standard child. -/
theorem C8_witness :
    ∃ e, (to_menu_item
        (.mk 0 "root" .Standard [.mk 5 "child" .Standard []]) "A" "P").elem?
        [0] = some e ∧
      activateOnce e = [.MenuItemClicked 5 "P" "A"] :=
  C8_roundtrip _ "A" "P" [0] (.mk 5 "child" .Standard []) rfl rfl

/-- C9. Missing required metadata panics the render pass rather than
skipping the item: a non-Passive record with no `icon_name` hits the
`unwrap` in `get_icon`, and a non-Passive record with a menu tree (with
non-empty submenus) but no menu-path field hits the `unwrap` on
`item.menu` in the render loop. -/
theorem C9_missing_field_panics :
    renderItem "A" ⟨⟨none, none, .Active, none⟩, none⟩ envAllDefault =
      .error "called Option::unwrap on a None value: icon_name" ∧
    renderItem "A" ⟨⟨some "ok-icon", none, .Active, none⟩,
        some ⟨[.mk 1 "x" .Standard []]⟩⟩ envOnlyOk =
      .error "called Option::unwrap on a None value: menu path" :=
  ⟨rfl, rfl⟩

/-- C10. Applying one inbound event touches only the entry at the event's
address: lookup at every other address is unchanged, an Update makes
lookup at its address yield exactly the new record, and a Remove (on a
unique-key state, the `HashMap` invariant) makes lookup at its address
miss. -/
theorem C10_apply_frame (s : TrayState) (e : NotifierItemMessage) :
    (∀ a, a ≠ e.address →
      lookupEntry (applyMessage s e) a = lookupEntry s a) ∧
    (∀ address item menu, e = .Update address item menu →
      lookupEntry (applyMessage s e) address = some ⟨item, menu⟩) ∧
    (∀ address, (s.map Prod.fst).Nodup → e = .Remove address →
      lookupEntry (applyMessage s e) address = none) := by
  refine ⟨fun a ha => ?_, ?_, ?_⟩
  · cases e with
    | Update addr item menu =>
      exact lookupEntry_insertEntry_other s addr _ a ha
    | Remove addr => exact lookupEntry_removeEntry_other s addr a ha
  · rintro address item menu rfl
    exact lookupEntry_insertEntry_self s address _
  · rintro address hnd rfl
    exact lookupEntry_removeEntry_self s address hnd

/-- C10, witness: removing "a" from a concrete two-entry state leaves the
entry at "b" unchanged and empties the entry at "a". -/
theorem C10_witness :
    lookupEntry (applyMessage s5a (.Remove "a")) "b" =
      lookupEntry s5a "b" ∧
    lookupEntry (applyMessage s5a (.Remove "a")) "a" = none :=
  ⟨(C10_apply_frame s5a (.Remove "a")).1 "b" (by decide),
    (C10_apply_frame s5a (.Remove "a")).2.2 "a" (by decide) rfl⟩

end SystemTray
